import Mathlib

/-!
Verification of `src/xmcl-runtime/network/pluginNetworkInterface.ts`
(sabinico/sabicorp-minecraft-launcher).

The file shallowly embeds the network-interface plugin: the retry decision
callback handed to `NetworkAgent`, the `calculateRetryAfterHeader` helper,
the `patchIfPool` capacity patch, the `maxSocketsSet` / `httpProxySet`
configuration subscribers, the `drain` handler of the agent, and
`destroyPool`.  JavaScript numbers that can be `NaN` are modelled by `JSNum`;
machine timing (promise races, `setTimeout` delays) is modelled by explicit
settle-time parameters.
-/

namespace PNI

/-- JavaScript number restricted to the integer values these code paths
produce, plus `NaN` (which `Number(s)` yields on a non-numeric string and
which `Invalid Date .getTime()` yields). -/
inductive JSNum where
  | nan : JSNum
  | num : Int → JSNum
deriving DecidableEq, Repr

/-- Checks the `Number.isNaN` predicate. -/
def JSNum.isNaN : JSNum → Bool
  | .nan => true
  | .num _ => false

/-- JavaScript subtraction: `NaN` is absorbing. -/
def jsSub : JSNum → JSNum → JSNum
  | .num a, .num b => .num (a - b)
  | _, _ => .nan

/-- Behaviour of `new Date(x).getTime()` for a numeric argument `x`: a finite
millisecond timestamp is returned unchanged, while `new Date(NaN)` is an
Invalid Date whose `getTime()` is `NaN`. -/
def jsDateGetTime : JSNum → JSNum
  | .nan => .nan
  | .num v => .num v

/-- Truthiness of an optional JavaScript string (`undefined` and the empty
string are falsy). -/
def jsTruthyStr : Option String → Bool
  | none => false
  | some s => s ≠ ""

/-- Statistics exposed by an undici `Pool` (`pool.stats`). -/
structure PoolStats where
  connected : Nat
  free : Nat
  pending : Nat
  queued : Nat
  running : Nat
  size : Nat
deriving DecidableEq, Repr

/-- Abstraction of a raw `retry-after` header string by its observable
conversions: its truthiness, the result of `Number(raw)`, and the result of
`new Date(raw).getTime()` (the HTTP-date reading, in milliseconds). -/
structure HeaderVal where
  truthy : Bool
  asNumber : JSNum
  dateMs : JSNum
deriving DecidableEq, Repr

/-- Fields the retry callback reads off the error value (`statusCode`,
`code`, and the `retry-after` entry of `headers`). -/
structure RetryErr where
  statusCode : Option Int
  code : Option String
  retryAfter : Option HeaderVal
deriving DecidableEq, Repr

/-- Fields the retry callback reads off `opts` and `opts.retryOptions`. -/
structure RetryOpts where
  noRetry : Bool
  origin : Option String
  method : String
  maxRetries : Nat
  minTimeout : Int
  maxTimeout : Int
  timeoutFactor : Int
  statusCodes : Option (List Int)
  errorCodes : List String
  methods : Option (List String)
deriving DecidableEq, Repr

/-- Outcome of the retry callback: `cb(err)` (fail) or `cb(null)` scheduled
after `waitMillis` milliseconds. -/
inductive RetryDecision where
  | fail : RetryDecision
  | retryIn : Int → RetryDecision
deriving DecidableEq, Repr

/-- Embeds `calculateRetryAfterHeader` (lines 65-70): the difference between
`new Date(retryAfter).getTime()` and `Date.now()`. -/
def calculateRetryAfterHeader (retryAfter : JSNum) (now : Int) : JSNum :=
  jsSub (jsDateGetTime retryAfter) (.num now)

/-- Embeds lines 144-150: reads the `retry-after` header, reassigns it to
`Number(header)`, and, when that is `NaN`, calls `calculateRetryAfterHeader`
on the already-reassigned (hence `NaN`) value; otherwise multiplies the
parsed seconds by 1000.  Yields `none` when the header is absent or falsy. -/
def processedRetryAfter (h : Option HeaderVal) (now : Int) : Option JSNum :=
  match h with
  | none => none
  | some hv =>
    if hv.truthy = false then none
    else
      let n := hv.asNumber
      some (if n.isNaN then calculateRetryAfterHeader n now else
        match n with
        | .nan => .nan
        | .num v => .num (v * 1000))

/-- Embeds lines 152-155: a strictly positive header-derived delay is clamped
to `maxTimeout`; otherwise (absent header, nonpositive value, or `NaN`) the
exponential backoff `min(minTimeout * timeoutFactor ^ (counter - 1),
maxTimeout)` applies.  In JavaScript `x > 0` is false for `undefined` and
`NaN`. -/
def retryTimeout (rah : Option JSNum) (minTimeout maxTimeout timeoutFactor : Int)
    (counter : Nat) : Int :=
  match rah with
  | some (.num v) =>
    if 0 < v then min v maxTimeout
    else min (minTimeout * timeoutFactor ^ (counter - 1)) maxTimeout
  | _ => min (minTimeout * timeoutFactor ^ (counter - 1)) maxTimeout

/-- Checks the conjunction on line 115: every one of `connected`, `pending`,
`running`, `queued`, `free` is falsy (zero), or the stats object itself is
absent. -/
def statsAllFalsy : Option PoolStats → Bool
  | none => true
  | some s =>
    s.connected == 0 && s.pending == 0 && s.running == 0 && s.queued == 0 && s.free == 0

/-- States that at least one of the five inspected counts is nonzero. -/
def statsAnyNonzero (s : PoolStats) : Bool :=
  s.connected != 0 || s.pending != 0 || s.running != 0 || s.queued != 0 || s.free != 0

/-- Embeds `clients.get(origin)?.stats` on lines 113-114: the per-origin map
holds dispatchers, and only `Pool` dispatchers carry stats (`none` models a
non-pool dispatcher, whose `stats` access is `undefined`). -/
def lookupStats (clients : List (String × Option PoolStats)) (origin : String) :
    Option PoolStats :=
  match clients.lookup origin with
  | some (some s) => some s
  | _ => none

/-- Embeds the error-code guard on lines 96-120: a truthy `code` that is
neither the retry sentinel nor in `errorCodes` fails, except that
`UND_ERR_CONNECT_TIMEOUT` first consults the origin pool stats — no truthy
origin, or all-falsy stats, fails; any nonzero count lets the decision fall
through to the later checks.  Returns `true` when the guard calls `cb(err)`. -/
def failsErrorCodeGuard (code : Option String) (errorCodes : List String)
    (origin : Option String) (clients : List (String × Option PoolStats)) : Bool :=
  if jsTruthyStr code = false then false
  else
    match code with
    | none => false
    | some c =>
      if c == "UND_ERR_REQ_RETRY" || errorCodes.contains c then false
      else if c != "UND_ERR_CONNECT_TIMEOUT" then true
      else if jsTruthyStr origin = false then true
      else
        match origin with
        | none => true
        | some o => statsAllFalsy (lookupStats clients o)

/-- Embeds the guard on line 123: a configured `methods` array that does not
contain the request method. -/
def methodNotAllowed (methods : Option (List String)) (method : String) : Bool :=
  match methods with
  | some ms => !ms.contains method
  | none => false

/-- Embeds the guard on lines 129-133: a present status code together with a
configured `statusCodes` array that does not contain it. -/
def statusNotAllowed (statusCode : Option Int) (statusCodes : Option (List Int)) : Bool :=
  match statusCode, statusCodes with
  | some sc, some scs => !scs.contains sc
  | _, _ => false

/-- Embeds lines 122-157 of the retry callback: the checks that follow the
error-code guard (method, status code, retry budget) and, when all pass, the
wait computation and scheduling. -/
def retryTail (err : RetryErr) (counter : Nat) (opts : RetryOpts) (now : Int) :
    RetryDecision :=
  if methodNotAllowed opts.methods opts.method then .fail
  else if statusNotAllowed err.statusCode opts.statusCodes then .fail
  else if counter > opts.maxRetries then .fail
  else .retryIn (retryTimeout (processedRetryAfter err.retryAfter now)
    opts.minTimeout opts.maxTimeout opts.timeoutFactor counter)

/-- Embeds the whole retry callback (lines 75-158): the `noRetry` escape, the
error-code guard, then the tail checks and wait computation. -/
def retry (err : RetryErr) (counter : Nat) (opts : RetryOpts)
    (clients : List (String × Option PoolStats)) (now : Int) : RetryDecision :=
  if opts.noRetry then .fail
  else if failsErrorCodeGuard err.code opts.errorCodes opts.origin clients then .fail
  else retryTail err counter opts now

/-- Modelled from the spec: the wait the specification prescribes for a
present `retry-after` header — numeric values are seconds multiplied by 1000,
non-numeric values are interpreted as an HTTP date and the wait is
`(headerTime - now)` in milliseconds. -/
def specRetryAfterMs (hv : HeaderVal) (now : Int) : JSNum :=
  match hv.asNumber with
  | .num v => .num (v * 1000)
  | .nan => jsSub hv.dateMs (.num now)

/-! Configuration: the `maxConnection` variable (line 15, default 64) and the
values assigned to it at startup (line 27) and by the `maxSocketsSet`
subscriber (lines 39-41). -/

/-- Embeds both assignments to `maxConnection`: `state.maxSockets > 0 ?
state.maxSockets : 64` at startup and `val > 0 ? val : 64` in the
`maxSocketsSet` subscriber (the two expressions are identical). -/
def applyMaxSockets (val : Int) : Int :=
  if 0 < val then val else 64

/-- Checks what a floor-clamp to 1 would compute instead, for contrast with
`applyMaxSockets`. -/
def floorClampOne (val : Int) : Int :=
  max val 1

/-! Pool capacity patching (`patchIfPool`, lines 56-63).  An undici `Pool`
stores its connection limit in a symbol-keyed own property named
`connections`; `patchIfPool` replaces that property with a getter returning
the current `maxConnection`. -/

/-- Describes the `connections` property of a dispatcher: either the value
stored at construction, or the live getter installed by `patchIfPool` that
reads `maxConnection` on every access. -/
inductive ConnectionsProp where
  | stored : Int → ConnectionsProp
  | liveMaxConnection : ConnectionsProp
deriving DecidableEq, Repr

/-- Dispatcher as `patchIfPool` sees it: whether it is a `Pool` instance,
whether its own keys contain a symbol described `connections`, and that
property. -/
structure DispatcherM where
  isPool : Bool
  hasConnectionsSymbol : Bool
  connections : ConnectionsProp
deriving DecidableEq, Repr

/-- Embeds `patchIfPool` (lines 56-63): when the dispatcher is a `Pool` and
the `connections` symbol is found among its own keys, the property is
redefined as a getter returning `maxConnection`; otherwise the dispatcher is
returned unchanged. -/
def patchIfPool (d : DispatcherM) : DispatcherM :=
  if d.isPool && d.hasConnectionsSymbol then
    { d with connections := .liveMaxConnection }
  else d

/-- Reads the `connections` property of a dispatcher given the current value
of the `maxConnection` variable at access time. -/
def readConnections (d : DispatcherM) (maxConnection : Int) : Int :=
  match d.connections with
  | .stored v => v
  | .liveMaxConnection => maxConnection

/-! Proxy configuration (`httpProxySet` subscriber, lines 42-49). -/

/-- State touched by the `httpProxySet` subscriber: the
`ProxySettingController`'s proxy URL and enabled flag, and the string last
passed to `app.setProxy`. -/
structure ProxyState where
  proxy : Option String
  enabled : Bool
  appProxy : Option String
deriving DecidableEq, Repr

/-- Outcome of `new URL(p)`: a parsed URL or a thrown `TypeError`. -/
inductive URLParse where
  | ok : String → URLParse
  | invalid : URLParse
deriving DecidableEq, Repr

/-- Produces the `logger.warn` message of lines 35 and 47 for an invalid
proxy string. -/
def warnLog (p : String) : List String :=
  ["Fail to set url as it is not a valid url " ++ p]

/-- Embeds the `httpProxySet` subscriber (lines 42-49): `app.setProxy(p)` runs
unconditionally; `proxyControl.setProxy(new URL(p))` runs inside a
`try`/`catch` whose `catch` only logs.  The result is the updated state and
the log lines; an `Except.error` would model an exception escaping the
subscriber, which the `catch` prevents for URL-parse failures. -/
def httpProxySetSubscriber (parse : URLParse) (p : String) (st : ProxyState) :
    Except String (ProxyState × List String) :=
  let st1 := { st with appProxy := some p }
  match parse with
  | .ok u => .ok ({ st1 with proxy := some u }, [])
  | .invalid => .ok (st1, warnLog p)

/-! Pool destruction (`destroyPool`, lines 235-243). -/

/-- Settlement behaviour of a dispatcher's `close()` promise, by the number
of milliseconds until it settles. -/
inductive CloseOutcome where
  | resolves : Nat → CloseOutcome
  | rejects : Nat → CloseOutcome
  | hangs : CloseOutcome
deriving DecidableEq, Repr

/-- Dispatcher entry as `destroyPool` and the drain handler manipulate it,
carrying its `close()` behaviour. -/
structure PoolD where
  close : CloseOutcome
deriving DecidableEq, Repr

/-- Gives the graceful-close deadline of `destroyPool`: the `timeout(500)`
racing the close. -/
def gracefulDeadlineMs : Nat := 500

/-- Tells whether the `destroyPool` promise resolved (so `clients.delete`
ran) or rejected (the `await` threw before the delete). -/
inductive DestroyResult where
  | completed : DestroyResult
  | threw : DestroyResult
deriving DecidableEq, Repr

/-- Removes an origin's entry from a client map (`clients.delete`). -/
def eraseKey {β : Type} (clients : List (String × β)) (origin : String) :
    List (String × β) :=
  clients.filter (fun kv => !(kv.1 == origin))

/-- Embeds `destroyPool` (lines 235-243).  `Promise.race` pits the pool's
`close()` against `timeout(500)`: a close resolving within the deadline wins
gracefully; otherwise the timer resolves first, `pool?.destroy()` runs (undici
`destroy()` resolves), and in both resolving paths `clients.delete(origin)`
follows the `await`.  A close that rejects within the deadline makes the race
— hence the awaited promise — reject, so the delete is never reached.  A
missing entry makes `pool?.close()` evaluate to `undefined`, which settles the
race immediately, and the delete runs.  A rejection at exactly the deadline is
modelled as losing to the timer. -/
def destroyPool (clients : List (String × PoolD)) (origin : String) :
    DestroyResult × List (String × PoolD) :=
  match clients.lookup origin with
  | none => (.completed, eraseKey clients origin)
  | some p =>
    match p.close with
    | .resolves _ => (.completed, eraseKey clients origin)
    | .rejects t =>
      if t < gracefulDeadlineMs then (.threw, clients)
      else (.completed, eraseKey clients origin)
    | .hangs => (.completed, eraseKey clients origin)

/-- Tells whether a close outcome is a rejection strictly inside the 500 ms
graceful deadline (the only way `destroyPool` can itself reject). -/
def rejectsWithinDeadline : CloseOutcome → Bool
  | .rejects t => t < gracefulDeadlineMs
  | _ => false

/-- Tells whether the origin's entry, if any, has a `close()` that rejects
within the graceful deadline. -/
def closeRejectsWithinDeadline (clients : List (String × PoolD)) (origin : String) :
    Bool :=
  match clients.lookup origin with
  | some p => rejectsWithinDeadline p.close
  | none => false

/-! Idle-pool reaping (the `drain` handler, lines 210-231). -/

/-- Dispatcher entry as the drain-check callback inspects it: a `Pool` with
its live stats, or any other dispatcher with its `kRunning` value when that
value is a number. -/
inductive DrainDisp where
  | pool : PoolStats → DrainDisp
  | other : Option Int → DrainDisp
deriving DecidableEq, Repr

/-- Gives the fixed delay between a drain event and its idle check
(`setTimeout(..., 60_000)` on line 230). -/
def idleReapDelayMs : Nat := 60000

/-- Computes the absolute time at which the check scheduled by a drain event
at time `t` runs. -/
def drainCheckTime (t : Nat) : Nat :=
  t + idleReapDelayMs

/-- Embeds the callback body of the drain handler (lines 212-229), applied to
the client map as it stands when the 60-second timer fires: a `Pool` whose
five inspected stats are all zero is closed and evicted, a non-pool
dispatcher whose `kRunning` is the number 0 is closed and evicted, and in
every other case (including a vanished entry) nothing happens.  The returned
flag records whether `close()` was invoked. -/
def drainCheck (clients : List (String × DrainDisp)) (origin : String) :
    List (String × DrainDisp) × Bool :=
  match clients.lookup origin with
  | some (.pool s) =>
    if s.connected == 0 && s.pending == 0 && s.running == 0 && s.queued == 0
        && s.free == 0 then
      (eraseKey clients origin, true)
    else (clients, false)
  | some (.other r) =>
    match r with
    | some running => if running == 0 then (eraseKey clients origin, true)
        else (clients, false)
    | none => (clients, false)
  | none => (clients, false)

/-! Theorems. -/

/-- Deleting an origin from a client map makes its lookup miss. -/
theorem lookup_eraseKey {β : Type} (clients : List (String × β)) (origin : String) :
    (eraseKey clients origin).lookup origin = none := by
  simp [eraseKey]
  intro a b _ h e
  exact h e.symm

/-- Claim C6: once the attempt counter strictly exceeds `maxRetries`, the
retry callback fails the request whatever the status code, error code,
headers, or method. -/
theorem retry_fails_when_budget_exhausted (err : RetryErr) (counter : Nat)
    (opts : RetryOpts) (clients : List (String × Option PoolStats)) (now : Int)
    (h : counter > opts.maxRetries) :
    retry err counter opts clients now = .fail := by
  simp only [retry, retryTail, h, ite_true, ite_self]

/-- Witness for C6: at counter 6 with `maxRetries` 5 the decision is a
failure. -/
theorem retry_fails_when_budget_exhausted_witness :
    retry ⟨some 500, none, none⟩ 6
      ⟨false, none, "GET", 5, 100, 100000, 2, none, [], none⟩ [] 0 = .fail :=
  retry_fails_when_budget_exhausted ⟨some 500, none, none⟩ 6
    ⟨false, none, "GET", 5, 100, 100000, 2, none, [], none⟩ [] 0 (by decide)

/-- Claim C9: a delivered `maxSockets` value becomes the concurrency cap when
strictly positive, and otherwise the cap falls back to the default 64 rather
than being floor-clamped to 1. -/
theorem maxSockets_update_semantics (val : Int) :
    (0 < val → applyMaxSockets val = val) ∧
    (val ≤ 0 → applyMaxSockets val = 64) ∧
    (val ≤ 0 → applyMaxSockets val ≠ floorClampOne val) := by
  refine ⟨fun h => if_pos h, fun h => if_neg (by omega), fun h => ?_⟩
  have h1 : applyMaxSockets val = 64 := if_neg (by omega)
  have h2 : floorClampOne val = 1 := by
    unfold floorClampOne
    omega
  rw [h1, h2]
  decide

/-- Witness for C9: the cap becomes 5 for input 5, and 64 (not 1) for inputs
0 and -3. -/
theorem maxSockets_update_semantics_witness :
    applyMaxSockets 5 = 5 ∧ applyMaxSockets 0 = 64 ∧ applyMaxSockets (-3) = 64 ∧
    applyMaxSockets (-3) ≠ floorClampOne (-3) :=
  ⟨(maxSockets_update_semantics 5).1 (by decide),
   (maxSockets_update_semantics 0).2.1 (by decide),
   (maxSockets_update_semantics (-3)).2.1 (by decide),
   (maxSockets_update_semantics (-3)).2.2 (by decide)⟩

/-- Claim C8: an invalid proxy-URL update leaves the subscriber without an
escaping exception (the result is `Except.ok`), logs a warning, and leaves the
`ProxySettingController` proxy state (URL and enabled flag) unchanged. -/
theorem invalid_proxy_url_is_harmless (p : String) (st : ProxyState) :
    httpProxySetSubscriber .invalid p st
      = .ok ({ st with appProxy := some p }, warnLog p) ∧
    ({ st with appProxy := some p } : ProxyState).proxy = st.proxy ∧
    ({ st with appProxy := some p } : ProxyState).enabled = st.enabled ∧
    warnLog p ≠ [] := by
  refine ⟨rfl, rfl, rfl, by simp [warnLog]⟩

/-- Claim C4: a patched pool's `connections` property evaluates to the
current `maxConnection` at every access — whatever value was stored at
construction — and in particular reflects any later `maxSocketsSet` update. -/
theorem patched_pool_capacity_is_live (d : DispatcherM) (m val : Int)
    (hp : d.isPool = true) (hs : d.hasConnectionsSymbol = true) :
    readConnections (patchIfPool d) m = m ∧
    readConnections (patchIfPool d) (applyMaxSockets val) = applyMaxSockets val := by
  unfold patchIfPool
  rw [hp, hs]
  exact ⟨rfl, rfl⟩

/-- Witness for C4: a pool constructed while the cap was 64 reports capacity
8 after the cap is updated to 8. -/
theorem patched_pool_capacity_is_live_witness :
    readConnections (patchIfPool ⟨true, true, .stored 64⟩) 8 = 8 ∧
    readConnections (patchIfPool ⟨true, true, .stored 64⟩) (applyMaxSockets 8)
      = applyMaxSockets 8 :=
  patched_pool_capacity_is_live ⟨true, true, .stored 64⟩ 8 8 rfl rfl

/-- Claim C10: a connect-timeout error code outside the allowed set fails
immediately when the request options carry no (truthy) origin, whatever the
client map holds. -/
theorem connect_timeout_without_origin_fails (err : RetryErr) (counter : Nat)
    (opts : RetryOpts) (clients : List (String × Option PoolStats)) (now : Int)
    (hcode : err.code = some "UND_ERR_CONNECT_TIMEOUT")
    (hnot : opts.errorCodes.contains "UND_ERR_CONNECT_TIMEOUT" = false)
    (ho : opts.origin = none) :
    retry err counter opts clients now = .fail := by
  have hguard : failsErrorCodeGuard err.code opts.errorCodes opts.origin clients = true := by
    rw [hcode, ho]
    unfold failsErrorCodeGuard
    simp [jsTruthyStr]
    simpa using hnot
  unfold retry
  rw [hguard]
  simp

/-- Relates the all-falsy check on a present stats object to the negation of
the any-nonzero predicate. -/
theorem statsAllFalsy_eq_not_anyNonzero (s : PoolStats) :
    statsAllFalsy (some s) = !statsAnyNonzero s := by
  simp [statsAllFalsy, statsAnyNonzero, bne, Bool.not_or, Bool.not_not]

/-- Claim C3: a connect-timeout error code outside the allowed set makes the
callback consult the origin pool's statistics: with any nonzero count among
connected, pending, running, queued, free the decision proceeds to the
subsequent method/status/budget checks, while all-falsy statistics (in
particular a missing pool) fail immediately. -/
theorem connect_timeout_consults_pool_stats (err : RetryErr) (counter : Nat)
    (opts : RetryOpts) (clients : List (String × Option PoolStats)) (now : Int)
    (o : String)
    (hnr : opts.noRetry = false)
    (hcode : err.code = some "UND_ERR_CONNECT_TIMEOUT")
    (hnot : opts.errorCodes.contains "UND_ERR_CONNECT_TIMEOUT" = false)
    (horigin : opts.origin = some o) (ho : o ≠ "") :
    (∀ s : PoolStats, statsAllFalsy (some s) = !statsAnyNonzero s) ∧
    statsAllFalsy none = true ∧
    (statsAllFalsy (lookupStats clients o) = false →
      retry err counter opts clients now = retryTail err counter opts now) ∧
    (statsAllFalsy (lookupStats clients o) = true →
      retry err counter opts clients now = .fail) := by
  have hmem : "UND_ERR_CONNECT_TIMEOUT" ∉ opts.errorCodes := by simpa using hnot
  have hguard : failsErrorCodeGuard err.code opts.errorCodes opts.origin clients
      = statsAllFalsy (lookupStats clients o) := by
    rw [hcode, horigin]
    unfold failsErrorCodeGuard
    simp [jsTruthyStr, ho, hmem]
  refine ⟨statsAllFalsy_eq_not_anyNonzero, rfl, ?_, ?_⟩
  · intro hf
    unfold retry
    rw [hnr, hguard, hf]
    simp
  · intro ht
    unfold retry
    rw [hnr, hguard, ht]
    simp

/-- Witness for C3: a connect timeout with `running = 1` (everything else 0)
proceeds to the tail checks, and with all-zero statistics fails. -/
theorem connect_timeout_consults_pool_stats_witness :
    retry ⟨none, some "UND_ERR_CONNECT_TIMEOUT", none⟩ 1
      ⟨false, some "o", "GET", 5, 100, 100000, 2, none, [], none⟩
      [("o", some ⟨0, 0, 0, 0, 1, 1⟩)] 0
      = retryTail ⟨none, some "UND_ERR_CONNECT_TIMEOUT", none⟩ 1
        ⟨false, some "o", "GET", 5, 100, 100000, 2, none, [], none⟩ 0 ∧
    retry ⟨none, some "UND_ERR_CONNECT_TIMEOUT", none⟩ 1
      ⟨false, some "o", "GET", 5, 100, 100000, 2, none, [], none⟩
      [("o", some ⟨0, 0, 0, 0, 0, 0⟩)] 0 = .fail :=
  ⟨(connect_timeout_consults_pool_stats ⟨none, some "UND_ERR_CONNECT_TIMEOUT", none⟩ 1
      ⟨false, some "o", "GET", 5, 100, 100000, 2, none, [], none⟩
      [("o", some ⟨0, 0, 0, 0, 1, 1⟩)] 0 "o" rfl rfl rfl rfl (by decide)).2.2.1 (by decide),
   (connect_timeout_consults_pool_stats ⟨none, some "UND_ERR_CONNECT_TIMEOUT", none⟩ 1
      ⟨false, some "o", "GET", 5, 100, 100000, 2, none, [], none⟩
      [("o", some ⟨0, 0, 0, 0, 0, 0⟩)] 0 "o" rfl rfl rfl rfl (by decide)).2.2.2 (by decide)⟩

/-- Claim C5: once the tail checks pass and there is no usable `retry-after`
value (absent header, or a computed delay that is zero or negative), the wait
is the exponential backoff `min(minTimeout * timeoutFactor ^ (counter - 1),
maxTimeout)`, which never exceeds `maxTimeout`. -/
theorem backoff_when_no_usable_header (err : RetryErr) (counter : Nat)
    (opts : RetryOpts) (now : Int)
    (hm : methodNotAllowed opts.methods opts.method = false)
    (hs : statusNotAllowed err.statusCode opts.statusCodes = false)
    (hc : counter ≤ opts.maxRetries)
    (_h1 : 1 ≤ counter)
    (hh : processedRetryAfter err.retryAfter now = none ∨
      ∃ v, processedRetryAfter err.retryAfter now = some (.num v) ∧ v ≤ 0) :
    retryTail err counter opts now
      = .retryIn (min (opts.minTimeout * opts.timeoutFactor ^ (counter - 1))
          opts.maxTimeout) ∧
    min (opts.minTimeout * opts.timeoutFactor ^ (counter - 1)) opts.maxTimeout
      ≤ opts.maxTimeout := by
  constructor
  · have hb : ¬ (counter > opts.maxRetries) := by omega
    unfold retryTail
    rw [hm, hs]
    simp only [Bool.false_eq_true, if_false, if_neg hb]
    congr 1
    rcases hh with h | ⟨v, hv, hneg⟩
    · rw [h]
      simp [retryTimeout]
    · rw [hv]
      have hv0 : ¬ (0 < v) := by omega
      simp only [retryTimeout, if_neg hv0]
  · exact min_le_right _ _

/-- Witness for C5: minTimeout 100, timeoutFactor 2, attempt 3, maxTimeout
100000 yield a 400 ms wait. -/
theorem backoff_when_no_usable_header_witness :
    retryTail ⟨none, none, none⟩ 3
      ⟨false, none, "GET", 5, 100, 100000, 2, none, [], none⟩ 0 = .retryIn 400 := by
  have h := backoff_when_no_usable_header ⟨none, none, none⟩ 3
    ⟨false, none, "GET", 5, 100, 100000, 2, none, [], none⟩ 0 rfl rfl (by decide)
    (by decide) (Or.inl rfl)
  rw [h.1]
  decide

/-- Claim C1 (refuted by the code): a non-numeric `retry-after` header whose
HTTP-date reading lies 2000 ms in the future does not yield a wait of about
2000 ms.  The callback reassigns `retryAfterHeader` to `Number(header)`
(which is `NaN`) before calling `calculateRetryAfterHeader`, so the date
branch computes `NaN`, `NaN > 0` is false, and the exponential backoff (100
ms here) is used; the computation the specification prescribes would give
2000. -/
theorem date_retry_after_header_is_lost :
    processedRetryAfter (some ⟨true, .nan, .num 1002000⟩) 1000000 = some .nan ∧
    calculateRetryAfterHeader .nan 1000000 = .nan ∧
    specRetryAfterMs ⟨true, .nan, .num 1002000⟩ 1000000 = .num 2000 ∧
    retry ⟨none, none, some ⟨true, .nan, .num 1002000⟩⟩ 1
      ⟨false, some "o", "GET", 5, 100, 100000, 2, none, [], none⟩ [] 1000000
      = .retryIn 100 ∧
    RetryDecision.retryIn 100 ≠ .retryIn 2000 := by
  refine ⟨rfl, rfl, rfl, by decide, by decide⟩

/-- Claim C2 (counterexample): when the looked-up pool's `close()` rejects
immediately — well inside the 500 ms deadline — the `Promise.race` rejects,
`destroyPool` throws at the `await`, and the origin's entry is NOT removed
from the mapping. -/
theorem destroyPool_keeps_entry_on_rejecting_close :
    destroyPool [("o", ⟨.rejects 0⟩)] "o" = (.threw, [("o", ⟨.rejects 0⟩)]) ∧
    (destroyPool [("o", ⟨.rejects 0⟩)] "o").2.lookup "o" = some ⟨.rejects 0⟩ := by
  refine ⟨by decide, by decide⟩

/-- Claim C2 (amended): `destroyPool` removes the origin's entry whenever the
entry is absent or its `close()` does not reject within the 500 ms deadline —
graceful close at any speed, hung close (force-destroy), or rejection only
after the deadline; a rejection within the deadline makes the call throw with
the entry left in place. -/
theorem destroyPool_removes_entry_unless_close_rejects
    (clients : List (String × PoolD)) (origin : String)
    (h : closeRejectsWithinDeadline clients origin = false) :
    (destroyPool clients origin).1 = .completed ∧
    (destroyPool clients origin).2.lookup origin = none := by
  unfold closeRejectsWithinDeadline at h
  cases hl : clients.lookup origin with
  | none =>
    unfold destroyPool
    simp only [hl]
    exact ⟨trivial, lookup_eraseKey clients origin⟩
  | some p =>
    simp only [hl] at h
    unfold destroyPool
    simp only [hl]
    cases hc : p.close with
    | resolves t =>
      simp only [hc]
      exact ⟨trivial, lookup_eraseKey clients origin⟩
    | rejects t =>
      simp only [hc, rejectsWithinDeadline] at h
      have ht : ¬ (t < gracefulDeadlineMs) := by simpa using h
      simp only [hc, if_neg ht]
      exact ⟨trivial, lookup_eraseKey clients origin⟩
    | hangs =>
      simp only [hc]
      exact ⟨trivial, lookup_eraseKey clients origin⟩

/-- Witness for the amended C2: a hung close is force-destroyed and the
entry removed. -/
theorem destroyPool_removes_entry_unless_close_rejects_witness :
    (destroyPool [("o", ⟨.hangs⟩)] "o").1 = .completed ∧
    (destroyPool [("o", ⟨.hangs⟩)] "o").2.lookup "o" = none :=
  destroyPool_removes_entry_unless_close_rejects [("o", ⟨.hangs⟩)] "o" (by decide)

/-- Claim C7: a drain event at time `t` schedules a check at `t + 60000` ms
that re-reads the client map as it stands at check time: a pool with all five
inspected counts zero is closed and its origin evicted (the later lookup
misses), a pool with any nonzero count survives with the map untouched, and a
non-pool dispatcher is closed and evicted exactly when its running count is
the number 0. -/
theorem drain_check_after_sixty_seconds (clients : List (String × DrainDisp))
    (origin : String) (t : Nat) :
    drainCheckTime t = t + 60000 ∧
    (∀ s, clients.lookup origin = some (.pool s) →
      ((s.connected = 0 ∧ s.pending = 0 ∧ s.running = 0 ∧ s.queued = 0 ∧ s.free = 0) →
        drainCheck clients origin = (eraseKey clients origin, true)) ∧
      (statsAnyNonzero s = true → drainCheck clients origin = (clients, false))) ∧
    (∀ r : Int, clients.lookup origin = some (.other (some r)) →
      (r = 0 → drainCheck clients origin = (eraseKey clients origin, true)) ∧
      (r ≠ 0 → drainCheck clients origin = (clients, false))) ∧
    (eraseKey clients origin).lookup origin = none := by
  refine ⟨rfl, ?_, ?_, lookup_eraseKey clients origin⟩
  · intro s hs
    constructor
    · intro hz
      obtain ⟨h1, h2, h3, h4, h5⟩ := hz
      unfold drainCheck
      simp [hs, h1, h2, h3, h4, h5]
    · intro hnz
      have hcond : (s.connected == 0 && s.pending == 0 && s.running == 0
          && s.queued == 0 && s.free == 0) = false := by
        have hiff := statsAllFalsy_eq_not_anyNonzero s
        simp only [statsAllFalsy] at hiff
        rw [hiff, hnz]
        rfl
      unfold drainCheck
      simp only [hs]
      rw [hcond]
      simp
  · intro r hr
    constructor
    · intro h0
      unfold drainCheck
      simp [hr, h0]
    · intro hne
      have hr0 : (r == 0) = false := by simpa using hne
      unfold drainCheck
      simp only [hr]
      rw [hr0]
      simp

/-- Witness for C7: at check time an all-zero pool is evicted and closed,
while a pool with `running = 1` survives with the map unchanged; the
scheduled delay for a drain at time 0 is 60000 ms. -/
theorem drain_check_after_sixty_seconds_witness :
    drainCheckTime 0 = 60000 ∧
    drainCheck [("o", .pool ⟨0, 0, 0, 0, 0, 2⟩)] "o" = ([], true) ∧
    drainCheck [("o", .pool ⟨0, 0, 0, 0, 1, 1⟩)] "o"
      = ([("o", .pool ⟨0, 0, 0, 0, 1, 1⟩)], false) := by
  refine ⟨(drain_check_after_sixty_seconds [] "o" 0).1, ?_, ?_⟩
  · have h := ((drain_check_after_sixty_seconds
      [("o", .pool ⟨0, 0, 0, 0, 0, 2⟩)] "o" 0).2.1 ⟨0, 0, 0, 0, 0, 2⟩ (by decide)).1
      (by decide)
    rw [h]
    decide
  · exact ((drain_check_after_sixty_seconds
      [("o", .pool ⟨0, 0, 0, 0, 1, 1⟩)] "o" 0).2.1 ⟨0, 0, 0, 0, 1, 1⟩ (by decide)).2
      (by decide)

/-- Witness for C10: a connect timeout with no origin fails even though some
pool in the map has every count nonzero. -/
theorem connect_timeout_without_origin_fails_witness :
    retry ⟨none, some "UND_ERR_CONNECT_TIMEOUT", none⟩ 1
      ⟨false, none, "GET", 5, 100, 100000, 2, none, [], none⟩
      [("https://example.com", some ⟨9, 9, 9, 9, 9, 9⟩)] 0 = .fail :=
  connect_timeout_without_origin_fails ⟨none, some "UND_ERR_CONNECT_TIMEOUT", none⟩ 1
    ⟨false, none, "GET", 5, 100, 100000, 2, none, [], none⟩
    [("https://example.com", some ⟨9, 9, 9, 9, 9, 9⟩)] 0 rfl rfl rfl

end PNI
